import Mathlib

/-!
Verification of the account state-management example (banking slice of the
redux-intro repository).  The account slice keeps a balance, an outstanding
loan with its purpose, and a loading flag for asynchronous currency
conversion.  Three transition functions appear in the source:

* the declarative slice reducer built from the case reducers of
  `src/features/accounts/accountSlice.js` (`createSlice`, lines 10-50);
* the classic hand-written switch reducer kept as a comment in the same
  file (lines 76-116), which covers the same five action types;
* the legacy switch reducer of `src/features/accounts/BalanceDisplay.jsx`
  (lines 170-200), whose state has no `isLoading` field and which handles
  only four action types (no `account/convertingCurrency` case).

Numeric amounts are modelled as rationals: the scenarios use an exchange
rate of 1.1, so integers would not be faithful.  JavaScript arithmetic on
the amounts used here is exact, hence `Rat` is a faithful carrier.
-/

namespace ReduxIntro

/-- The account slice state of `accountSlice.js` (initialState, lines 3-8). -/
structure AccountState where
  balance : Rat
  loan : Rat
  loanPurpose : String
  isLoading : Bool
deriving DecidableEq, Repr

/-- `initialState` of `accountSlice.js` lines 3-8. -/
def initialState : AccountState :=
  { balance := 0, loan := 0, loanPurpose := "", isLoading := false }

/-- The payload object built by the `prepare` callback of `requestLoan`
(`accountSlice.js` lines 25-29): `{ amount, loanPurpose }`. -/
structure RequestLoanPayload where
  amount : Rat
  loanPurpose : String
deriving DecidableEq, Repr

/-- `prepare(amount, loanPurpose)` of `accountSlice.js` lines 25-29. -/
def requestLoanPrepare (amount : Rat) (loanPurpose : String) : RequestLoanPayload :=
  { amount := amount, loanPurpose := loanPurpose }

/-- Case reducer `deposit(state, action)` of `accountSlice.js` lines 14-17:
`state.balance += action.payload; state.isLoading = false`. -/
def depositCase (s : AccountState) (payload : Rat) : AccountState :=
  { s with balance := s.balance + payload, isLoading := false }

/-- Case reducer `withdraw(state, action)` of `accountSlice.js` lines 19-21:
`state.balance -= action.payload`. -/
def withdrawCase (s : AccountState) (payload : Rat) : AccountState :=
  { s with balance := s.balance - payload }

/-- Case reducer `requestLoan.reducer(state, action)` of `accountSlice.js`
lines 31-37: rejected (state unchanged) while `state.loan > 0`, otherwise
`balance += payload.amount; loan = payload.amount;
loanPurpose = payload.loanPurpose`. -/
def requestLoanCase (s : AccountState) (payload : RequestLoanPayload) : AccountState :=
  if s.loan > 0 then s
  else
    { s with
      balance := s.balance + payload.amount
      loan := payload.amount
      loanPurpose := payload.loanPurpose }

/-- Case reducer `payLoan(state)` of `accountSlice.js` lines 40-44:
`balance -= loan; loan = 0; loanPurpose = ""`. -/
def payLoanCase (s : AccountState) : AccountState :=
  { s with balance := s.balance - s.loan, loan := 0, loanPurpose := "" }

/-- Case reducer `convertingCurrency(state)` of `accountSlice.js` lines
46-48: `state.isLoading = true`. -/
def convertingCurrencyCase (s : AccountState) : AccountState :=
  { s with isLoading := true }

/-- The account actions dispatched in the repository, identified by the
action creator that produces them.  `other t` stands for any dispatched
action whose `type` string `t` matches none of the cases handled by the
account transition functions; every reducer in the source returns the
input state unchanged for such an action (the `default` branch of the
switch reducers, and the fallback of the slice-generated reducer). -/
inductive Action where
  | deposit (amount : Rat)
  | withdraw (amount : Rat)
  | requestLoan (amount : Rat) (purpose : String)
  | payLoan
  | convertingCurrency
  | other (t : String)
deriving DecidableEq, Repr

/-- The reducer generated by `createSlice` in `accountSlice.js` lines
10-50: each `account/...` action type is routed to its case reducer
(`requestLoan` through its `prepare` callback first), every other type
leaves the state unchanged. -/
def sliceReducer (s : AccountState) (a : Action) : AccountState :=
  match a with
  | .deposit amount => depositCase s amount
  | .withdraw amount => withdrawCase s amount
  | .requestLoan amount purpose => requestLoanCase s (requestLoanPrepare amount purpose)
  | .payLoan => payLoanCase s
  | .convertingCurrency => convertingCurrencyCase s
  | .other _ => s

/-- The classic hand-written switch reducer `accountReducer` kept in the
comment block of `accountSlice.js` lines 76-116 (switch on `action.type`
with a `default` branch returning the state). -/
def accountReducer (s : AccountState) (a : Action) : AccountState :=
  match a with
  | .deposit payload =>
      { s with balance := s.balance + payload, isLoading := false }
  | .withdraw payload =>
      { s with balance := s.balance - payload }
  | .requestLoan amount purpose =>
      if s.loan > 0 then s
      else { s with balance := s.balance + amount, loan := amount, loanPurpose := purpose }
  | .payLoan =>
      { s with balance := s.balance - s.loan, loan := 0, loanPurpose := "" }
  | .convertingCurrency =>
      { s with isLoading := true }
  | .other _ => s

/-- The state of the legacy reducer in `BalanceDisplay.jsx` lines 164-168:
it has no `isLoading` field. -/
structure LegacyState where
  balance : Rat
  loan : Rat
  loanPurpose : String
deriving DecidableEq, Repr

/-- `initialState` of `BalanceDisplay.jsx` lines 164-168. -/
def legacyInitialState : LegacyState :=
  { balance := 0, loan := 0, loanPurpose := "" }

/-- The legacy switch reducer `reducer` of `BalanceDisplay.jsx` lines
170-200.  It handles `account/deposit`, `account/withdraw`,
`account/requestLoan` and `account/payLoan`; any other type, including
`account/convertingCurrency`, falls to the `default` branch and returns
the state unchanged. -/
def legacyReducer (s : LegacyState) (a : Action) : LegacyState :=
  match a with
  | .deposit payload =>
      { s with balance := s.balance + payload }
  | .withdraw payload =>
      { s with balance := s.balance - payload }
  | .requestLoan amount purpose =>
      if s.loan > 0 then s
      else { s with balance := s.balance + amount, loan := amount, loanPurpose := purpose }
  | .payLoan =>
      { s with balance := s.balance - s.loan, loan := 0, loanPurpose := "" }
  | .convertingCurrency => s
  | .other _ => s

/-- Projection of the slice state onto the fields the legacy state has. -/
def proj (s : AccountState) : LegacyState :=
  { balance := s.balance, loan := s.loan, loanPurpose := s.loanPurpose }

/-- Dispatching a sequence of actions in order: the store folds the
reducer over the action list, starting from the current state. -/
def applyActions {σ : Type} (r : σ → Action → σ) (s : σ) (l : List Action) : σ :=
  l.foldl r s

/-- Result of the exported `deposit(amount, currency)` action producer of
`accountSlice.js` lines 54-71: either a plain synchronous action, or a
deferred unit of work (thunk) that, once the external currency lookup has
returned a rate, issues its dispatches in order. -/
inductive DepositResult where
  | plainAction (a : Action)
  | thunk (run : Rat → List Action)

/-- The exported `deposit(amount, currency)` producer of `accountSlice.js`
lines 54-71: for `"USD"` it returns the plain action
`{ type: "account/deposit", payload: amount }`; otherwise it returns
deferred work that dispatches `convertingCurrency`, performs the external
rate lookup (modelled as the thunk's rate argument), computes
`converted = rate * amount` and dispatches `deposit(converted)`. -/
def depositProducer (amount : Rat) (currency : String) : DepositResult :=
  if currency = "USD" then .plainAction (.deposit amount)
  else .thunk (fun rate => [.convertingCurrency, .deposit (rate * amount)])

/-- The deposit/withdraw sub-alphabet of the account actions, used for
the balance-sum property. -/
inductive MoneyAction where
  | deposit (amount : Rat)
  | withdraw (amount : Rat)
deriving DecidableEq, Repr

/-- A deposit/withdraw request as a dispatched account action. -/
def MoneyAction.toAction : MoneyAction → Action
  | .deposit amount => .deposit amount
  | .withdraw amount => .withdraw amount

/-- Sum of the amounts of the deposits in a deposit/withdraw sequence. -/
def sumDeposits : List MoneyAction → Rat
  | [] => 0
  | .deposit amount :: l => amount + sumDeposits l
  | .withdraw _ :: l => sumDeposits l

/-- Sum of the amounts of the withdrawals in a deposit/withdraw
sequence. -/
def sumWithdrawals : List MoneyAction → Rat
  | [] => 0
  | .deposit _ :: l => sumWithdrawals l
  | .withdraw amount :: l => amount + sumWithdrawals l

/-! ### Helper lemmas shared by several claims -/

/-- Unfolding a dispatch sequence one action at a time. -/
theorem applyActions_cons {σ : Type} (r : σ → Action → σ) (s : σ) (a : Action)
    (l : List Action) : applyActions r s (a :: l) = applyActions r (r s a) l := rfl

/-- The empty dispatch sequence leaves the state unchanged. -/
theorem applyActions_nil {σ : Type} (r : σ → Action → σ) (s : σ) :
    applyActions r s [] = s := rfl

/-- A rejected loan request leaves the slice state unchanged. -/
theorem sliceReducer_requestLoan_rejected (s : AccountState) (amount : Rat)
    (purpose : String) (h : 0 < s.loan) :
    sliceReducer s (.requestLoan amount purpose) = s := by
  simp [sliceReducer, requestLoanCase, requestLoanPrepare, h]

/-- The commented classic reducer and the slice reducer agree on every
single action. -/
theorem accountReducer_eq_sliceReducer (s : AccountState) (a : Action) :
    accountReducer s a = sliceReducer s a := by
  cases a <;> rfl

/-- One step of the legacy reducer matches one step of the slice reducer
on the fields the legacy state has. -/
theorem legacyReducer_proj_step (s : AccountState) (a : Action) :
    legacyReducer (proj s) a = proj (sliceReducer s a) := by
  cases a with
  | requestLoan amount purpose =>
      by_cases h : s.loan > 0 <;>
        simp [legacyReducer, sliceReducer, proj, requestLoanCase, requestLoanPrepare, h]
  | _ =>
      simp [legacyReducer, sliceReducer, proj, depositCase, withdrawCase,
        payLoanCase, convertingCurrencyCase]

/-- `sumDeposits` is invariant under permutation of the sequence. -/
theorem sumDeposits_perm {l l' : List MoneyAction} (h : l.Perm l') :
    sumDeposits l = sumDeposits l' := by
  induction h with
  | nil => rfl
  | cons x _ ih => cases x <;> simp [sumDeposits, ih]
  | swap x y l => cases x <;> cases y <;> simp [sumDeposits, add_left_comm]
  | trans _ _ ih ih' => rw [ih, ih']

/-- `sumWithdrawals` is invariant under permutation of the sequence. -/
theorem sumWithdrawals_perm {l l' : List MoneyAction} (h : l.Perm l') :
    sumWithdrawals l = sumWithdrawals l' := by
  induction h with
  | nil => rfl
  | cons x _ ih => cases x <;> simp [sumWithdrawals, ih]
  | swap x y l => cases x <;> cases y <;> simp [sumWithdrawals, add_left_comm]
  | trans _ _ ih ih' => rw [ih, ih']

/-- The balance after a deposit/withdraw sequence is the initial balance
plus the deposits minus the withdrawals. -/
theorem balance_after_money_actions (s : AccountState) (l : List MoneyAction) :
    (applyActions sliceReducer s (l.map MoneyAction.toAction)).balance =
      s.balance + sumDeposits l - sumWithdrawals l := by
  induction l generalizing s with
  | nil => simp [applyActions_nil, sumDeposits, sumWithdrawals]
  | cons hd tl ih =>
      cases hd with
      | deposit amount =>
          rw [List.map_cons, MoneyAction.toAction, applyActions_cons, ih]
          simp [sliceReducer, depositCase, sumDeposits, sumWithdrawals]
          ring
      | withdraw amount =>
          rw [List.map_cons, MoneyAction.toAction, applyActions_cons, ih]
          simp [sliceReducer, withdrawCase, sumDeposits, sumWithdrawals]
          ring

/-! ### Claims -/

/-- Claim C3: the classic hand-written switch reducers and the
declarative slice reducer are semantically equivalent: for every initial
state and every input sequence of dispatched actions, the commented
classic reducer of `accountSlice.js` produces a state identical to the
slice reducer's, and the legacy reducer of `BalanceDisplay.jsx` produces
a state identical to the slice reducer's on every field its state has
(its state carries no `isLoading` field and it has no
`convertingCurrency` case, so the comparison is on
balance/loan/loanPurpose). -/
theorem c3_classic_slice_equivalent (s : AccountState) (l : List Action) :
    applyActions accountReducer s l = applyActions sliceReducer s l ∧
    applyActions legacyReducer (proj s) l = proj (applyActions sliceReducer s l) := by
  induction l generalizing s with
  | nil => exact ⟨rfl, rfl⟩
  | cons a tl ih =>
      constructor
      · rw [applyActions_cons, applyActions_cons, accountReducer_eq_sliceReducer]
        exact (ih (sliceReducer s a)).1
      · rw [applyActions_cons, applyActions_cons, legacyReducer_proj_step]
        exact (ih (sliceReducer s a)).2

/-- Claim C4: for every finite sequence of deposit and withdraw actions,
the final balance equals the initial balance plus the sum of the deposited
amounts minus the sum of the withdrawn amounts, and the final balance is
the same for every permutation of the sequence. -/
theorem c4_balance_sum_permutation_invariant :
    (∀ (s : AccountState) (l : List MoneyAction),
      (applyActions sliceReducer s (l.map MoneyAction.toAction)).balance =
        s.balance + sumDeposits l - sumWithdrawals l) ∧
    (∀ (s : AccountState) (l l' : List MoneyAction), l.Perm l' →
      (applyActions sliceReducer s (l.map MoneyAction.toAction)).balance =
        (applyActions sliceReducer s (l'.map MoneyAction.toAction)).balance) := by
  refine ⟨balance_after_money_actions, fun s l l' h => ?_⟩
  rw [balance_after_money_actions, balance_after_money_actions,
    sumDeposits_perm h, sumWithdrawals_perm h]

/-- Witness for C4 at a concrete pair of sequences that are permutations
of each other. -/
theorem c4_witness :
    (applyActions sliceReducer initialState
      ([MoneyAction.deposit 5, MoneyAction.withdraw 3].map MoneyAction.toAction)).balance =
    (applyActions sliceReducer initialState
      ([MoneyAction.withdraw 3, MoneyAction.deposit 5].map MoneyAction.toAction)).balance :=
  c4_balance_sum_permutation_invariant.2 initialState
    [MoneyAction.deposit 5, MoneyAction.withdraw 3]
    [MoneyAction.withdraw 3, MoneyAction.deposit 5]
    (List.Perm.swap (MoneyAction.withdraw 3) (MoneyAction.deposit 5) [])

/-- Claim C7: dispatching `convertingCurrency` always yields
`isLoading = true`, dispatching any `deposit` always yields
`isLoading = false`, and no other account action changes `isLoading`. -/
theorem c7_isLoading_state_machine (s : AccountState) :
    (sliceReducer s .convertingCurrency).isLoading = true ∧
    (∀ amount : Rat, (sliceReducer s (.deposit amount)).isLoading = false) ∧
    (∀ amount : Rat, (sliceReducer s (.withdraw amount)).isLoading = s.isLoading) ∧
    (∀ (amount : Rat) (purpose : String),
      (sliceReducer s (.requestLoan amount purpose)).isLoading = s.isLoading) ∧
    (sliceReducer s .payLoan).isLoading = s.isLoading ∧
    (∀ t : String, (sliceReducer s (.other t)).isLoading = s.isLoading) := by
  refine ⟨rfl, fun _ => rfl, fun _ => rfl, fun amount purpose => ?_, rfl, fun _ => rfl⟩
  by_cases h : s.loan > 0 <;>
    simp [sliceReducer, requestLoanCase, requestLoanPrepare, h]

/-- Claim C8: the `deposit(amount, currency)` producer returns the plain
synchronous deposit action with the amount unconverted when the currency
is `"USD"`; for any other currency it returns deferred work that
dispatches `convertingCurrency` and then `deposit(rate * amount)`, so
that with a stubbed rate of 1.1 the dispatches of `deposit(500, "EUR")`
deposit 550 and leave `isLoading = false`. -/
theorem c8_deposit_producer :
    (∀ amount : Rat, depositProducer amount "USD" = .plainAction (.deposit amount)) ∧
    (∀ (amount : Rat) (currency : String), currency ≠ "USD" →
      depositProducer amount currency =
        .thunk (fun rate => [.convertingCurrency, .deposit (rate * amount)])) ∧
    (∀ s : AccountState,
      (applyActions sliceReducer s
        [.convertingCurrency, .deposit ((1.1 : Rat) * 500)]).balance = s.balance + 550 ∧
      (applyActions sliceReducer s
        [.convertingCurrency, .deposit ((1.1 : Rat) * 500)]).isLoading = false) := by
  refine ⟨fun amount => ?_, fun amount currency h => ?_, fun s => ⟨?_, rfl⟩⟩
  · simp [depositProducer]
  · simp [depositProducer, h]
  · show s.balance + (1.1 : Rat) * 500 = s.balance + 550
    norm_num

/-- Witness for C8 at `deposit(500, "EUR")`. -/
theorem c8_witness :
    depositProducer 500 "EUR" =
      .thunk (fun rate => [.convertingCurrency, .deposit (rate * 500)]) :=
  c8_deposit_producer.2.1 500 "EUR" (by decide)

/-- Claim C1: starting from the initial account state
`{balance := 0, loan := 0, loanPurpose := "", isLoading := false}`,
dispatching deposit(500), then withdraw(200), then
requestLoan(100, "Buy a Car"), then payLoan() yields, in order, states
with balance 500, balance 300, then
`{balance := 400, loan := 100, loanPurpose := "Buy a Car"}`, and finally
`{balance := 300, loan := 0, loanPurpose := ""}`. -/
theorem c1_scenario :
    (applyActions sliceReducer initialState [.deposit 500]).balance = 500 ∧
    (applyActions sliceReducer initialState
      [.deposit 500, .withdraw 200]).balance = 300 ∧
    applyActions sliceReducer initialState
      [.deposit 500, .withdraw 200, .requestLoan 100 "Buy a Car"] =
      { balance := 400, loan := 100, loanPurpose := "Buy a Car", isLoading := false } ∧
    applyActions sliceReducer initialState
      [.deposit 500, .withdraw 200, .requestLoan 100 "Buy a Car", .payLoan] =
      { balance := 300, loan := 0, loanPurpose := "", isLoading := false } := by
  refine ⟨?_, ?_, ?_, ?_⟩ <;>
    norm_num [applyActions, List.foldl, sliceReducer, depositCase, withdrawCase,
      requestLoanCase, requestLoanPrepare, payLoanCase, initialState]

/-- Claim C2: in every account state with `loan > 0`, dispatching
`requestLoan` any number of times, with any amounts and purposes, leaves
the state unchanged — balance, loan, loanPurpose and isLoading all keep
their values. -/
theorem c2_requestLoan_rejection_idempotent (s : AccountState) (h : 0 < s.loan)
    (reqs : List (Rat × String)) :
    applyActions sliceReducer s
      (reqs.map fun p => .requestLoan p.1 p.2) = s := by
  induction reqs with
  | nil => rfl
  | cons p tl ih =>
      simp only [List.map_cons, applyActions_cons,
        sliceReducer_requestLoan_rejected s p.1 p.2 h]
      exact ih

/-- Witness for C2 at a concrete state with an active loan and three
rejected loan requests. -/
theorem c2_witness :
    applyActions sliceReducer
      { balance := 400, loan := 100, loanPurpose := "Buy a Car", isLoading := false }
      ([((200 : Rat), "B"), ((300 : Rat), "C"), ((50 : Rat), "D")].map
        fun p => .requestLoan p.1 p.2) =
      { balance := 400, loan := 100, loanPurpose := "Buy a Car", isLoading := false } :=
  c2_requestLoan_rejection_idempotent
    { balance := 400, loan := 100, loanPurpose := "Buy a Car", isLoading := false }
    (by decide) [((200 : Rat), "B"), ((300 : Rat), "C"), ((50 : Rat), "D")]

/-- Claim C5: from any state with `loan = 0`, dispatching
`requestLoan(amount, purpose)` immediately followed by `payLoan()` yields
a state with `loan = 0`, `loanPurpose = ""` and the balance it had before
the loan request. -/
theorem c5_loan_roundtrip (s : AccountState) (amount : Rat) (purpose : String)
    (h : s.loan = 0) :
    (sliceReducer (sliceReducer s (.requestLoan amount purpose)) .payLoan).loan = 0 ∧
    (sliceReducer (sliceReducer s (.requestLoan amount purpose)) .payLoan).loanPurpose = "" ∧
    (sliceReducer (sliceReducer s (.requestLoan amount purpose)) .payLoan).balance =
      s.balance := by
  simp [sliceReducer, requestLoanCase, requestLoanPrepare, payLoanCase, h]

/-- Witness for C5 at a concrete loan-free state. -/
theorem c5_witness :
    (sliceReducer (sliceReducer
        { balance := 300, loan := 0, loanPurpose := "", isLoading := false }
        (.requestLoan 100 "Buy a Car")) .payLoan).loan = 0 ∧
    (sliceReducer (sliceReducer
        { balance := 300, loan := 0, loanPurpose := "", isLoading := false }
        (.requestLoan 100 "Buy a Car")) .payLoan).loanPurpose = "" ∧
    (sliceReducer (sliceReducer
        { balance := 300, loan := 0, loanPurpose := "", isLoading := false }
        (.requestLoan 100 "Buy a Car")) .payLoan).balance = 300 :=
  c5_loan_roundtrip
    { balance := 300, loan := 0, loanPurpose := "", isLoading := false }
    100 "Buy a Car" (by decide)

/-- Claim C6: a dispatched action whose `type` matches no handled case is
a no-op for every account transition function in the source — the slice
reducer, the commented classic reducer, and the legacy reducer of
`BalanceDisplay.jsx` all return the input state unchanged (the functions
are total, so no failure is possible). -/
theorem c6_unknown_action_noop (t : String) :
    (∀ s : AccountState, sliceReducer s (.other t) = s) ∧
    (∀ s : AccountState, accountReducer s (.other t) = s) ∧
    (∀ s : LegacyState, legacyReducer s (.other t) = s) :=
  ⟨fun _ => rfl, fun _ => rfl, fun _ => rfl⟩

/-- Claim C9: frame conditions — `withdraw(amount)` changes only
`balance` (it subtracts the amount), leaving `loan`, `loanPurpose` and
`isLoading` untouched, and `payLoan()` changes only `balance`, `loan` and
`loanPurpose`, leaving `isLoading` untouched. -/
theorem c9_frame_conditions (s : AccountState) (amount : Rat) :
    (sliceReducer s (.withdraw amount)).balance = s.balance - amount ∧
    (sliceReducer s (.withdraw amount)).loan = s.loan ∧
    (sliceReducer s (.withdraw amount)).loanPurpose = s.loanPurpose ∧
    (sliceReducer s (.withdraw amount)).isLoading = s.isLoading ∧
    (sliceReducer s .payLoan).balance = s.balance - s.loan ∧
    (sliceReducer s .payLoan).loan = 0 ∧
    (sliceReducer s .payLoan).loanPurpose = "" ∧
    (sliceReducer s .payLoan).isLoading = s.isLoading := by
  simp [sliceReducer, withdrawCase, payLoanCase]

/-- Claim C10: `payLoan` is idempotent — dispatching it twice in a row
yields the same state as dispatching it once, since the first dispatch
clears `loan` and `loanPurpose`, so the second subtracts zero and
rewrites already-cleared fields. -/
theorem c10_payLoan_idempotent (s : AccountState) :
    sliceReducer (sliceReducer s .payLoan) .payLoan = sliceReducer s .payLoan := by
  simp [sliceReducer, payLoanCase]

end ReduxIntro
